import Mathlib

/-!
Verification development for the message deduplication and admission pipeline
of the telegram-summary-bot repository.

The Python sources are shallowly embedded as Lean definitions:

* `app/rules.py` — `boost_importance_for_events` and the importance-order maps;
* `app/embedding_client.py` — `cosine_similarity` (floats idealized as reals);
* `app/storage.py` — the `messages` table modelled as a `List Row` in rowid
  order, together with `insert_message`, `update_analysis`,
  `is_message_processed`, `mark_message_processed`, `find_exact_duplicate`
  and `find_recent_similar`;
* `app/run.py` — the per-message handler `handle_message` and the polling
  cycle `ingest`, with remote collaborators (embedding service, LLM, OCR,
  link fetching, channel metadata, message transport) supplied through an
  explicit environment `Env`, and the externally observable calls recorded
  as an effect trace.

Machine integers fit comfortably in 64 bits throughout the modelled paths, so
channel and message identities are plain `Int`.
-/

set_option maxRecDepth 8000
set_option linter.unusedVariables false

namespace TGBot

/-! ## Python string primitives

Helpers that model the Python string operations used by the pipeline:
`str.strip`, `str.lower`, substring containment (`needle in hay`) and
`len`.  Strings are handled as their character lists, which matches
Python's code-point semantics for the texts involved. -/

/-- Whitespace test used to model Python `str.strip` and the regex class
`\s` for the inputs of interest (space, tab, carriage return, newline). -/
def isWsChar (c : Char) : Bool :=
  c = ' ' || c = '\t' || c = '\r' || c = '\n'

/-- Drops leading and trailing whitespace from a character list. -/
def stripWs (cs : List Char) : List Char :=
  ((cs.dropWhile isWsChar).reverse.dropWhile isWsChar).reverse

/-- Models Python `str.strip()`. -/
def pyStrip (s : String) : String :=
  String.mk (stripWs s.data)

/-- Models Python `str.lower()` for the ASCII keywords compared in the
pipeline (Korean characters are unaffected by lowercasing). -/
def pyLower (s : String) : String :=
  String.mk (s.data.map Char.toLower)

/-- Models Python `needle in hay` (substring containment) on character
lists. -/
def hasSubList (hay needle : List Char) : Bool :=
  match hay with
  | [] => needle.isEmpty
  | _ :: t => needle.isPrefixOf hay || hasSubList t needle

/-- Models Python `needle in hay` on strings. -/
def strContains (hay needle : String) : Bool :=
  hasSubList hay.data needle.data

/-- Models Python `len` on strings (number of code points). -/
def pyLen (s : String) : Nat :=
  s.data.length

/-! ## Model of `app/rules.py`

`boost_importance_for_events(text, current_importance)` performs three
regex searches (`EVENT_TERMS`, `ACTION_TERMS`, `IMPORTANT_LINK_REGEX`) on
the text and then combines the results through the `importance_order` /
`inv` dictionaries.  The three regex searches are side-effect free text
predicates; they are abstracted here as function arguments
(`eventSearch`, `actionSearch`, `linkSearch`), so every theorem below
quantifies over all possible match outcomes, which subsumes the concrete
regexes.  The remainder of the function body is translated literally. -/

/-- Models `importance_order.get(s, 0)` for the dictionary
`{"low": 0, "medium": 1, "high": 2}` (also used by `run.py` as
`IMPORTANCE_ORDER.get(s, 0)`). -/
def importanceOrderGet (s : String) : Nat :=
  if s = "low" then 0
  else if s = "medium" then 1
  else if s = "high" then 2
  else 0

/-- Models `inv.get(n, fallback)` for the inverted dictionary
`{0: "low", 1: "medium", 2: "high"}` built inside
`boost_importance_for_events`. -/
def invImportanceGet (n : Nat) (fallback : String) : String :=
  if n = 0 then "low"
  else if n = 1 then "medium"
  else if n = 2 then "high"
  else fallback

/-- Models `rules.boost_importance_for_events`.  Returns
`(new_importance, extra_categories, extra_tags)`.  The first three
arguments stand for `EVENT_TERMS.search`, `ACTION_TERMS.search` and
`IMPORTANT_LINK_REGEX.search` respectively. -/
def boost_importance_for_events (eventSearch actionSearch linkSearch : String → Bool)
    (text : String) (current_importance : String) :
    String × List String × List String :=
  let has_event := eventSearch text
  let has_action := actionSearch text
  let has_important_link := linkSearch text
  let cur := importanceOrderGet current_importance
  let new := if has_important_link then max cur 2
             else if has_event && has_action then max cur 2
             else if has_event then max cur 1
             else cur
  let new_importance := invImportanceGet new current_importance
  let extra_categories :=
    (if has_event then ["event"] else []) ++
    (if has_important_link then ["important_link"] else [])
  let extra_tags :=
    (if has_event then ["giveaway"] else []) ++
    (if has_important_link then ["form_event"] else [])
  (new_importance, extra_categories, extra_tags)

/-! ## Model of `app/embedding_client.py`

`UpstageEmbeddingClient.cosine_similarity(vec1, vec2)` computes the numpy
norms of both vectors, returns `0.0` when either norm is zero, and
otherwise divides the dot product by the product of the norms; the whole
body sits in a `try`/`except` that converts any computation error into
`0.0`.  Floats are idealized as reals.  The one computation error that
the typed embedding can express is the `ValueError` that `np.dot` raises
for one-dimensional arrays of different lengths, which is modelled as the
explicit length test below (placed after the norm test, matching the
order in which the Python body reaches `np.dot`). -/

/-- Dot product of two real vectors, truncating at the shorter one the way
`zip` would; it is only consulted on equal-length vectors. -/
def dotR : List ℝ → List ℝ → ℝ
  | a :: as, b :: bs => a * b + dotR as bs
  | _, _ => 0

/-- Models `np.linalg.norm` on a real vector. -/
noncomputable def npNorm (v : List ℝ) : ℝ :=
  Real.sqrt (dotR v v)

/-- Models `UpstageEmbeddingClient.cosine_similarity`. -/
noncomputable def cosine_similarity (vec1 vec2 : List ℝ) : ℝ :=
  if npNorm vec1 = 0 ∨ npNorm vec2 = 0 then 0
  else if vec1.length ≠ vec2.length then 0
  else dotR vec1 vec2 / (npNorm vec1 * npNorm vec2)

/-! ## Model of `app/storage.py` (dedup-relevant subset)

The `messages` table is modelled as a `List Row` kept in rowid order
(ascending insertion order).  Only the columns consulted by the pipeline
and by the claims are carried; the columns `author`, `original_text`,
`forward_text`, `image_paths`, `forward_info`, `money_making_info`,
`action_guide` and `event_products` are written but never read back on
the modelled paths and are omitted.

Nullability follows the schema created by `_init_db`: `importance`,
`categories`, `tags`, `summary` and `original_link` are `TEXT NOT NULL`
columns whose values arrive as Python `None`/strings, hence
`Option String` here; `embedding` is the serialized vector where the
string `'[]'` denotes "no vector", modelled as `Option (List ℝ)` with
`none` standing for `'[]'`. -/

/-- Row of the `messages` table. -/
structure Row where
  chat_id : Int
  message_id : Int
  date_ts : Int
  text : String
  embedding : Option (List ℝ)
  text_hash : String
  importance : Option String
  categories : Option String
  tags : Option String
  summary : Option String
  original_link : Option String

/-- Models `SQLiteStore.is_message_processed` (`COUNT(*) > 0` on the
unique key `(chat_id, message_id)`). -/
def is_message_processed (store : List Row) (chat_id message_id : Int) : Bool :=
  store.any (fun r => r.chat_id == chat_id && r.message_id == message_id)

/-- Models `SQLiteStore.insert_message`, an `INSERT OR IGNORE` into
`messages`.  SQLite's `OR IGNORE` conflict resolution silently skips the
row — raising nothing — when the row violates any applicable constraint:
either the `UNIQUE(chat_id, message_id)` key already exists, or one of
the `NOT NULL` columns (`importance`, `categories`, `tags`, `summary`,
`original_link`) receives `NULL`.  Both skip conditions are modelled
explicitly.  All remaining columns receive non-null values at every call
site and cannot cause a constraint violation. -/
def insert_message (store : List Row) (chat_id message_id date_ts : Int)
    (text : String) (embedding_value : Option (List ℝ)) (text_hash : String)
    (importance categories tags summary original_link : Option String) : List Row :=
  if is_message_processed store chat_id message_id then store
  else if importance.isNone || categories.isNone || tags.isNone ||
          summary.isNone || original_link.isNone then store
  else store ++ [{ chat_id := chat_id, message_id := message_id, date_ts := date_ts,
                   text := text, embedding := embedding_value, text_hash := text_hash,
                   importance := importance, categories := categories, tags := tags,
                   summary := summary, original_link := original_link }]

/-- Models `SQLiteStore.update_analysis` (`UPDATE messages SET ... WHERE
chat_id = ? AND message_id = ?`). -/
def update_analysis (store : List Row) (chat_id message_id : Int)
    (importance categories tags summary original_link : String) : List Row :=
  store.map (fun r =>
    if r.chat_id == chat_id && r.message_id == message_id then
      { r with importance := some importance, categories := some categories,
               tags := some tags, summary := some summary,
               original_link := some original_link }
    else r)

/-- Models `SQLiteStore.mark_message_processed`: a guarded plain `INSERT`
of a placeholder row with `date_ts = 0`, empty text/hash, `'[]'`
embedding, importance `"low"` and empty strings in the remaining
`NOT NULL` text columns. -/
def mark_message_processed (store : List Row) (chat_id message_id : Int) : List Row :=
  if is_message_processed store chat_id message_id then store
  else store ++ [{ chat_id := chat_id, message_id := message_id, date_ts := 0,
                   text := "", embedding := none, text_hash := "",
                   importance := some "low", categories := some "", tags := some "",
                   summary := some "", original_link := some "" }]

/-- Inserts a row into a list kept in descending `date_ts` order, placing
it before the first row whose `date_ts` does not exceed it. -/
def insertByDateDesc (r : Row) : List Row → List Row
  | [] => [r]
  | x :: xs => if x.date_ts ≤ r.date_ts then r :: x :: xs else x :: insertByDateDesc r xs

/-- Stable descending sort by `date_ts`, modelling `ORDER BY date_ts
DESC` with ties kept in rowid (scan) order. -/
def sortByDateDesc (store : List Row) : List Row :=
  store.foldr insertByDateDesc []

/-- Models `SQLiteStore.find_exact_duplicate`: among rows with
`date_ts >= since_ts` and the given `text_hash`, the most recent one
(`ORDER BY date_ts DESC LIMIT 1`), as `(chat_id, message_id)`. -/
def find_exact_duplicate (store : List Row) (text_hash : String) (since_ts : Int) :
    Option (Int × Int) :=
  match sortByDateDesc (store.filter (fun r =>
      since_ts ≤ r.date_ts && r.text_hash == text_hash)) with
  | [] => none
  | r :: _ => some (r.chat_id, r.message_id)

/-- Accumulator step of the scan loop inside
`SQLiteStore.find_recent_similar`: the pair carries Python's `best` and
`best_similarity` (the latter initialized to `0.0`); a row is recorded
exactly when `similarity >= similarity_threshold and similarity >
best_similarity`. -/
noncomputable def simStepCode (sim : List ℝ → List ℝ → ℝ) (query : List ℝ) (threshold : ℝ)
    (acc : Option (Int × Int × ℝ) × ℝ) (r : Row) : Option (Int × Int × ℝ) × ℝ :=
  match r.embedding with
  | none => acc
  | some e =>
    let s := sim query e
    if threshold ≤ s ∧ acc.2 < s then (some (r.chat_id, r.message_id, s), s) else acc

/-- Rows scanned by `find_recent_similar`: `date_ts >= since_ts`, a
non-`'[]'` embedding, `ORDER BY date_ts DESC LIMIT 1000`. -/
def similarWindow (store : List Row) (since_ts : Int) : List Row :=
  (sortByDateDesc (store.filter (fun r =>
      since_ts ≤ r.date_ts && !r.embedding.isNone))).take 1000

/-- Models `SQLiteStore.find_recent_similar`.  The `embedding_client`
dependency of the Python method is abstracted as the similarity function
`sim`; the stored serialized embeddings always parse in the model (every
stored value is either `'[]'`, which the SQL filter excludes, or a
serialized float list), so the parse-failure `continue` branch is
unreachable. -/
noncomputable def find_recent_similar (sim : List ℝ → List ℝ → ℝ) (store : List Row)
    (query : List ℝ) (since_ts : Int) (threshold : ℝ) : Option (Int × Int × ℝ) :=
  ((similarWindow store since_ts).foldl (simStepCode sim query threshold)
    ((none : Option (Int × Int × ℝ)), (0 : ℝ))).1

/-- Accumulator step for the specification variant of the similarity
scan: keep the highest-scoring candidate at or above the threshold,
never replacing on ties (the scan runs most-recent first, so ties go to
the most recently captured row). -/
noncomputable def simStepSpec (sim : List ℝ → List ℝ → ℝ) (query : List ℝ) (threshold : ℝ)
    (acc : Option (Int × Int × ℝ)) (r : Row) : Option (Int × Int × ℝ) :=
  match r.embedding with
  | none => acc
  | some e =>
    let s := sim query e
    if threshold ≤ s then
      match acc with
      | none => some (r.chat_id, r.message_id, s)
      | some b => if b.2.2 < s then some (r.chat_id, r.message_id, s) else acc
    else acc

/-- Specification variant of `find_recent_similar`, following the spec's
words: scan records with `captured_at >= since` and a non-null embedding
within the fixed-size most-recent window, and return the highest-scoring
match whose similarity is at or above the threshold (inclusive), ties
broken in favor of the most recently captured record; no match when no
scanned record reaches the threshold. -/
noncomputable def find_recent_similar_spec (sim : List ℝ → List ℝ → ℝ) (store : List Row)
    (query : List ℝ) (since_ts : Int) (threshold : ℝ) : Option (Int × Int × ℝ) :=
  (similarWindow store since_ts).foldl (simStepSpec sim query threshold) none

/-! ## Model of `app/run.py` — pattern sets used by the admission decision

The five `meaningless_patterns` regexes all have the form
`^\s*CORE\s*$`, so a `re.search` match is exactly: the text with
surrounding whitespace stripped matches `CORE`.  The twelve
`meaningless_summary_patterns` are unanchored literal substrings.
`re.IGNORECASE` has no effect on any of them (no cased letters outside
`[a-zA-Z0-9]`, which is case-closed). -/

/-- Character class of the punctuation-only pattern
`^\s*[!@#$%^&*()_+\-=\[\]{};':"\\|,.<>/?~`]+\s*$` (codepoints 123, 125,
39 and 96 are the braces, the apostrophe and the backtick). -/
def meaninglessSpecialChars : List Char :=
  ['!', '@', '#', '$', '%', '^', '&', '*', '(', ')', '_', '+', '-', '=',
   '[', ']', Char.ofNat 123, Char.ofNat 125, ';', Char.ofNat 39, ':', '"',
   '\\', '|', ',', '.', '<', '>', '/', '?', '~', Char.ofNat 96]

/-- Models the regex class `[a-zA-Z0-9]`. -/
def isAsciiAlnum (c : Char) : Bool :=
  c.isAlpha || c.isDigit

/-- Alternatives of the greetings-only pattern. -/
def meaninglessGreetings : List String :=
  ["안녕", "하이", "ㅎㅇ", "ㅎㅇㅎㅇ", "ㅋㅋ", "ㅎㅎ", "ㅇㅇ", "ㄴㄴ", "ㅇㅈ", "ㄴㄴㄴ"]

/-- Alternatives of the emoji-only pattern. -/
def meaninglessEmojis : List String :=
  ["좋아요", "👍", "❤️", "💕", "💖", "💗", "💘", "💙", "💚", "💛", "💜",
   "🖤", "🤍", "🤎"]

/-- Alternatives of the short-replies-only pattern. -/
def meaninglessShortReplies : List String :=
  ["ㅇ", "ㄴ", "ㅇㅇ", "ㄴㄴ", "ㅇㅈ", "ㄴㄴㄴ"]

/-- Models `any(re.search(p, text, re.IGNORECASE) for p in
meaningless_patterns)` from `handle_message`. -/
def meaninglessText (text : String) : Bool :=
  let core := stripWs text.data
  (!core.isEmpty && core.all (fun c => meaninglessSpecialChars.contains c)) ||
  (decide (1 ≤ core.length) && decide (core.length ≤ 3) && core.all isAsciiAlnum) ||
  meaninglessGreetings.contains (String.mk core) ||
  meaninglessEmojis.contains (String.mk core) ||
  meaninglessShortReplies.contains (String.mk core)

/-- Literal substring patterns of `meaningless_summary_patterns`. -/
def meaninglessSummaryPatterns : List String :=
  ["구체적인 내용이 부족", "요약하기 어렵습니다", "추가적인 정보나 문맥이 필요",
   "요약할 수 있는 구체적인 내용이 없", "내용이 부족하여 요약하기 어렵",
   "구체적인 정보가 부족", "요약할 만한 내용이", "추가 정보가 필요합니다",
   "문맥이 부족", "구체적인 내용이 없습니다", "요약하기 어려운 내용입니다",
   "추가적인 내용이나 맥락이 부족"]

/-- Models `any(re.search(p, analysis.summary, re.IGNORECASE) for p in
meaningless_summary_patterns)`. -/
def meaninglessSummary (summary : String) : Bool :=
  meaninglessSummaryPatterns.any (fun p => strContains summary p)

/-- The `important_keywords` list of `handle_message`. -/
def importantKeywords : List String :=
  ["airdrop", "launch", "listing", "whitelist", "presale", "ico", "ido",
   "nft", "dao", "defi", "gamefi", "metaverse"]

/-- Models `any(keyword in text.lower() for keyword in
important_keywords)`. -/
def hasImportantKeyword (text : String) : Bool :=
  importantKeywords.any (fun k => strContains (pyLower text) k)

/-! ## Model of `app/run.py` — message, environment and pipeline

External collaborators are supplied through `Env` (dependency
injection, matching how the Python handler closes over `store`, `llm`,
`embedding_client`, the processors and `settings`):

* `md5` — the content hash `hashlib.md5(...).hexdigest()`, an arbitrary
  deterministic string function;
* `embed` — `embedding_client.get_embedding`; `none` covers every
  failure path (short text, remote failure after retries), in which case
  the handler sets `embedding_json = '[]'`;
* `sim` — `embedding_client.cosine_similarity`;
* `classify` — `llm.analyze`; `Except.error` covers an exception after
  exhausting retries (including malformed JSON);
* `eventSearch`/`actionSearch`/`linkSearch` — the three regex searches
  of `rules.py`;
* `ocrText` — the image download + OCR result (`none`: no extractable
  text or any failure); `linkSummary` — the fetched-link summary
  (`none`: no links, fetch failure);
* `channelMeta` — the channel metadata cache lookup `get_channel_meta`;
* the remaining fields mirror `settings` and the delivery outcomes.

The model covers messages that already passed the channel filtering of
lines 425–516 (channel-type checks, allowlist maintenance), whose
`chat_id` is numeric — for those the handler sets
`numeric_chat_id = chat_id`, so a single `Int` identity suffices. -/

/-- Forward provenance, the variant type produced by the duck-typed
`extract_forward_info` attribute sniffing: optional origin channel
identity and optional origin message identity. -/
structure Fwd where
  orig_chat_id : Option Int
  orig_msg_id : Option Int

/-- Inbound transport message as seen by `handle_message`. -/
structure Msg where
  chat_id : Int
  msg_id : Int
  message : String
  has_media : Bool
  fwd : Option Fwd

/-- Channel metadata returned by `get_channel_meta`. -/
structure ChannelMeta where
  is_public : Bool
  username : Option String
  internal_id : Option Int

/-- Structured judgment `AnalysisResult` parsed by `llm.analyze`. -/
structure Analysis where
  is_coin_related : Bool
  has_valuable_info : Bool
  importance : String
  categories : List String
  tags : List String
  summary : String
  money_making_info : String
  action_guide : String
  event_products : String
  relevance_reason : String
  info_value_reason : String

/-- Environment of external collaborators and settings. -/
structure Env where
  md5 : String → String
  embed : String → Option (List ℝ)
  sim : List ℝ → List ℝ → ℝ
  classify : String → Except Unit Analysis
  eventSearch : String → Bool
  actionSearch : String → Bool
  linkSearch : String → Bool
  ocrText : Msg → Option String
  linkSummary : Msg → Option String
  channelMeta : Int → ChannelMeta
  now_ts : Int
  dedup_recent_minutes : Int
  dedup_similarity_threshold : ℝ
  important_threshold : String
  aggregator_ok : Bool
  important_bot_token : Bool

/-- Python truthiness of an optional integer (`None` and `0` are falsy). -/
def truthyInt : Option Int → Bool
  | some n => !(n == 0)
  | none => false

/-- Python truthiness of an optional string (`None` and `''` are falsy). -/
def truthyStr : Option String → Bool
  | some s => !(s == "")
  | none => false

/-- Models `run.extract_forward_info`, with the transport-library
attribute sniffing collapsed into the `Fwd` variant constructed at the
adapter boundary.  Returns `(is_forward, original_chat_id,
original_message_id, original_text)`; the extracted `original_text` is
`getattr(msg, 'message', '')`, the transport message's own text. -/
def extract_forward_info (m : Msg) : Bool × Option Int × Option Int × Option String :=
  match m.fwd with
  | some f => (true, f.orig_chat_id, f.orig_msg_id, some m.message)
  | none => (false, none, none, none)

/-- Models `formatter.build_original_link`. -/
def build_original_link (chat_id message_id : Int) (is_public : Bool)
    (username : Option String) (internal_id : Option Int) : String :=
  if is_public && truthyStr username then
    "https://t.me/" ++ username.getD "" ++ "/" ++ toString message_id
  else
    match internal_id with
    | some iid => "https://t.me/c/" ++ toString iid ++ "/" ++ toString message_id
    | none => ""

/-- Working text of the handler after forward-text selection and
enrichment.  For a forward with truthy `original_text` the handler takes
`original_text.strip()`, otherwise `message_text.strip()`; since
`extract_forward_info` returns the message's own text as
`original_text`, both equal `pyStrip m.message`.  Image OCR then appends
`" [이미지 텍스트: …]"` when media is present and text was extracted, and
link fetching appends `" [링크 내용: …]"` when the message has text and a
link was fetched and analyzed. -/
def pipelineText (env : Env) (m : Msg) : String :=
  let base := pyStrip m.message
  let withOcr :=
    if m.has_media then
      match env.ocrText m with
      | some extracted =>
        if extracted ≠ "" then
          (if base ≠ "" then base ++ " [이미지 텍스트: " ++ extracted ++ "]"
           else "[이미지 텍스트: " ++ extracted ++ "]")
        else base
      | none => base
    else base
  if pyStrip m.message ≠ "" then
    match env.linkSummary m with
    | some s =>
      if withOcr ≠ "" then withOcr ++ " [링크 내용: " ++ s ++ "]"
      else "[링크 내용: " ++ s ++ "]"
    | none => withOcr
  else withOcr

/-- Whether `link_content` is set by the handler (text present and a
link fetched and analyzed). -/
def hasLinkContent (env : Env) (m : Msg) : Bool :=
  !(pyStrip m.message == "") && (env.linkSummary m).isSome

/-- Models the admission decision of `handle_message` (lines 816–879):
threshold comparison, the three overrides (length, keyword,
media/link), then the meaningless-text veto and the meaningless-summary
veto, in program order. -/
def shouldForward (env : Env) (text summary importance : String)
    (has_media has_link_content : Bool) : Bool :=
  let importance_order := importanceOrderGet importance
  let threshold_order := importanceOrderGet env.important_threshold
  let sf0 := decide (threshold_order ≤ importance_order)
  let is_meaningless := meaninglessText text
  let sf1 := if !sf0 && decide (30 < (stripWs text.data).length) && !is_meaningless
             then true else sf0
  let sf2 := if !sf1 && hasImportantKeyword text then true else sf1
  let sf3 := if !sf2 && (has_media || has_link_content) then true else sf2
  let sf4 := if is_meaningless then false else sf3
  if meaninglessSummary summary then false else sf4

/-- Key under which the preliminary record is inserted:
`original_message_id if is_forward and original_message_id else msg.id`. -/
def storedMessageId (m : Msg) : Int :=
  match extract_forward_info m with
  | (is_forward, _, original_message_id, _) =>
    if is_forward && truthyInt original_message_id then original_message_id.getD 0
    else m.msg_id

/-- Origin link computed by the handler (lines 780–814): for a forward
with truthy origin channel and origin message identity, the link is
built from the origin identity and the origin channel's metadata;
otherwise from the transport channel and the stored message id. -/
def computeOrigLink (env : Env) (m : Msg) (message_id : Int) : String :=
  match extract_forward_info m with
  | (is_forward, original_chat_id, original_message_id, _) =>
    if is_forward && truthyInt original_chat_id && truthyInt original_message_id then
      let oc := original_chat_id.getD 0
      let om := original_message_id.getD 0
      let meta := env.channelMeta oc
      build_original_link oc om meta.is_public meta.username meta.internal_id
    else
      let meta := env.channelMeta m.chat_id
      build_original_link m.chat_id message_id meta.is_public meta.username
        meta.internal_id

/-- Models the `for c in extra: if c not in base: base.append(c)` merge
of boost-implied categories and tags. -/
def appendNew (base extra : List String) : List String :=
  extra.foldl (fun acc c => if acc.contains c then acc else acc ++ [c]) base

/-- Externally observable calls made by the handler, in program order:
the similarity scan, the preliminary insert (with the key it passes),
the classification call, the `update_analysis` call and the four
delivery destinations (each carrying the origin link embedded in the
formatted output). -/
inductive Eff where
  | simScan
  | insertCall (chat_id message_id : Int)
  | classifyCall
  | updateCall (chat_id message_id : Int) (original_link : String)
  | sendAggregator (original_link : String)
  | sendImportant (original_link : String)
  | sendPersonal (original_link : String)
  | sendImportantBot (original_link : String)
deriving DecidableEq

/-- Terminal disposition of one `handle_message` run. -/
inductive Outcome where
  | alreadyProcessed
  | skippedEmpty
  | skippedForwardNoOrigin
  | skippedNoText
  | droppedExactDup
  | droppedSimilar
  | classifyFailed
  | notCoinRelated
  | noValuableInfo
  | suppressed
  | dispatched
  | sendFailed
deriving DecidableEq

/-- Result of one handler run: the store after the run, the effect
trace, and the disposition. -/
structure HRes where
  store : List Row
  effs : List Eff
  out : Outcome

/-- Whether an effect is a delivery to some destination. -/
def isSendEff : Eff → Bool
  | Eff.sendAggregator _ => true
  | Eff.sendImportant _ => true
  | Eff.sendPersonal _ => true
  | Eff.sendImportantBot _ => true
  | _ => false

/-- Origin link carried by an effect, when it carries one. -/
def effLink : Eff → Option String
  | Eff.updateCall _ _ l => some l
  | Eff.sendAggregator l => some l
  | Eff.sendImportant l => some l
  | Eff.sendPersonal l => some l
  | Eff.sendImportantBot l => some l
  | _ => none

/-- Component `is_forward` of the extracted forward information. -/
def isFwd (m : Msg) : Bool :=
  (extract_forward_info m).1

/-- Component `original_chat_id` of the extracted forward information. -/
def fwdChatId (m : Msg) : Option Int :=
  (extract_forward_info m).2.1

/-- Window start `since_ts = now_ts - dedup_recent_minutes * 60`. -/
def sinceTs (env : Env) : Int :=
  env.now_ts - env.dedup_recent_minutes * 60

/-- Effective importance after the rule-based boost. -/
def boostedImportance (env : Env) (text : String) (a : Analysis) : String :=
  (boost_importance_for_events env.eventSearch env.actionSearch env.linkSearch text
      a.importance).1

/-- Categories after merging the boost-implied extras. -/
def boostedCategories (env : Env) (text : String) (a : Analysis) : List String :=
  appendNew a.categories
    (boost_importance_for_events env.eventSearch env.actionSearch env.linkSearch text
        a.importance).2.1

/-- Tags after merging the boost-implied extras. -/
def boostedTags (env : Env) (text : String) (a : Analysis) : List String :=
  appendNew a.tags
    (boost_importance_for_events env.eventSearch env.actionSearch env.linkSearch text
        a.importance).2.2

/-- Delivery sequence of a successful dispatch: the aggregator delivery,
the secondary "important" delivery on medium/high importance, the
personal notification, and the important-bot notification on
medium/high importance when a bot token is configured (secondary
failures are logged and ignored, so every attempted delivery appears). -/
def dispatchSends (importance orig_link : String) (important_bot_token : Bool) :
    List Eff :=
  [Eff.sendAggregator orig_link] ++
  (if importance == "high" || importance == "medium"
   then [Eff.sendImportant orig_link] else []) ++
  [Eff.sendPersonal orig_link] ++
  (if (importance == "medium" || importance == "high") && important_bot_token
   then [Eff.sendImportantBot orig_link] else [])

/-- Post-classification part of `handle_message` (lines 744–1046):
relevance and value admission flags, rule-based boost, origin link,
admission decision, and dispatch/suppression.  `store1` and `effs1` are
the store and trace after the preliminary insert.  On dispatch, the
aggregator delivery is the success criterion: when it fails the handler
returns without `update_analysis`. -/
noncomputable def afterClassify (env : Env) (store1 : List Row) (m : Msg)
    (text : String) (effs1 : List Eff) (analysis : Analysis) : HRes :=
  if !analysis.is_coin_related then ⟨store1, effs1, Outcome.notCoinRelated⟩
  else if !analysis.has_valuable_info then ⟨store1, effs1, Outcome.noValuableInfo⟩
  else if !(shouldForward env text analysis.summary
              (boostedImportance env text analysis) m.has_media
              (hasLinkContent env m)) then
    ⟨update_analysis store1 m.chat_id (storedMessageId m)
        (boostedImportance env text analysis)
        (String.intercalate "," (boostedCategories env text analysis))
        (String.intercalate "," (boostedTags env text analysis))
        analysis.summary (computeOrigLink env m (storedMessageId m)),
     effs1 ++ [Eff.updateCall m.chat_id (storedMessageId m)
                 (computeOrigLink env m (storedMessageId m))],
     Outcome.suppressed⟩
  else if env.aggregator_ok then
    ⟨update_analysis store1 m.chat_id (storedMessageId m)
        (boostedImportance env text analysis)
        (String.intercalate "," (boostedCategories env text analysis))
        (String.intercalate "," (boostedTags env text analysis))
        analysis.summary (computeOrigLink env m (storedMessageId m)),
     effs1 ++ dispatchSends (boostedImportance env text analysis)
                (computeOrigLink env m (storedMessageId m)) env.important_bot_token ++
       [Eff.updateCall m.chat_id (storedMessageId m)
          (computeOrigLink env m (storedMessageId m))],
     Outcome.dispatched⟩
  else ⟨store1, effs1, Outcome.sendFailed⟩

/-- Continuation of `handle_message` after the duplicate checks
(lines 699–1046): preliminary insert of the record (passing `None` for
`importance`, `categories`, `tags`, `summary` and `original_link`, as
the call site does), then the classification call.  `effs0` is the
trace accumulated by the dedup stage (`[.simScan]` when a similarity
scan ran, else `[]`). -/
noncomputable def afterDedup (env : Env) (store : List Row) (m : Msg)
    (text text_hash : String) (embedding : Option (List ℝ)) (effs0 : List Eff) : HRes :=
  match env.classify text with
  | Except.error _ =>
    ⟨insert_message store m.chat_id (storedMessageId m) env.now_ts text embedding
        text_hash none none none none none,
     effs0 ++ [Eff.insertCall m.chat_id (storedMessageId m), Eff.classifyCall],
     Outcome.classifyFailed⟩
  | Except.ok analysis =>
    afterClassify env
      (insert_message store m.chat_id (storedMessageId m) env.now_ts text embedding
        text_hash none none none none none)
      m text
      (effs0 ++ [Eff.insertCall m.chat_id (storedMessageId m), Eff.classifyCall])
      analysis

/-- Models `run.handle_message` for messages past the channel filtering:
processed-check, empty-message skip, forward-origin requirement,
empty-text skip, enrichment, content hash, best-effort embedding,
exact-hash duplicate check, similarity duplicate check, then
`afterDedup`.  The embedding call happens before the duplicate checks
(as in the source); the exact-hash check short-circuits the similarity
scan, and a message without an embedding skips the similarity scan. -/
noncomputable def handle_message (env : Env) (store : List Row) (m : Msg) : HRes :=
  if is_message_processed store m.chat_id m.msg_id then
    ⟨store, [], Outcome.alreadyProcessed⟩
  else if pyStrip m.message == "" && !m.has_media then
    ⟨store, [], Outcome.skippedEmpty⟩
  else if isFwd m && !truthyInt (fwdChatId m) then
    ⟨store, [], Outcome.skippedForwardNoOrigin⟩
  else if pyStrip m.message == "" then
    ⟨store, [], Outcome.skippedNoText⟩
  else
    match find_exact_duplicate store (env.md5 (pipelineText env m)) (sinceTs env) with
    | some _ => ⟨store, [], Outcome.droppedExactDup⟩
    | none =>
      match env.embed (pipelineText env m) with
      | some v =>
        (match find_recent_similar env.sim store v (sinceTs env)
                 env.dedup_similarity_threshold with
         | some _ => ⟨store, [Eff.simScan], Outcome.droppedSimilar⟩
         | none =>
           afterDedup env store m (pipelineText env m)
             (env.md5 (pipelineText env m)) (some v) [Eff.simScan])
      | none =>
        afterDedup env store m (pipelineText env m)
          (env.md5 (pipelineText env m)) none []

/-- Models one iteration of the polling loop of `main` (lines
1238–1262) for a single message: skip when already processed, otherwise
run `handle_message` and then record the transport identity via
`mark_message_processed` (the mark is written on success and on handled
failure alike). -/
noncomputable def ingest (env : Env) (store : List Row) (m : Msg) : HRes :=
  if is_message_processed store m.chat_id m.msg_id then
    ⟨store, [], Outcome.alreadyProcessed⟩
  else
    let r := handle_message env store m
    ⟨mark_message_processed r.store m.chat_id m.msg_id, r.effs, r.out⟩

/-! ## Concrete fixtures for closed-run evaluations

A baseline environment in which every remote collaborator behaves
deterministically: the hash function is injective on the texts involved
(identity), the embedding service is unavailable (hash-only dedup mode),
classification succeeds with a relevant, valuable, high-importance
judgment, no rule regex matches, channels are private with their id as
internal id, and the aggregator delivery succeeds. -/

/-- High-importance, relevant, valuable judgment. -/
def anaHigh : Analysis :=
  ⟨true, true, "high", [], [], "s", "없음", "", "", "", ""⟩

/-- Baseline deterministic environment. -/
noncomputable def envA : Env :=
  { md5 := fun s => s
    embed := fun _ => none
    sim := fun _ _ => 0
    classify := fun _ => Except.ok anaHigh
    eventSearch := fun _ => false
    actionSearch := fun _ => false
    linkSearch := fun _ => false
    ocrText := fun _ => none
    linkSummary := fun _ => none
    channelMeta := fun c => ⟨false, none, some c⟩
    now_ts := 1000000
    dedup_recent_minutes := 360
    dedup_similarity_threshold := 0.85
    important_threshold := "low"
    aggregator_ok := true
    important_bot_token := false }

/-- Baseline environment five minutes later. -/
noncomputable def envA2 : Env :=
  { envA with now_ts := 1000300 }

/-- Baseline environment whose classification call fails after
exhausting retries. -/
noncomputable def envFail : Env :=
  { envA with classify := fun _ => Except.error () }

/-- Baseline environment 366 minutes later — past the 360-minute recency
window of `envA`'s ingestion time. -/
noncomputable def envA3 : Env :=
  { envA with now_ts := 1022000 }

/-- Plain channel message. -/
def msgA : Msg :=
  ⟨-1001, 10, "bitcoin listing update", false, none⟩

/-- Second plain message with byte-identical text, different transport
identity. -/
def msgB : Msg :=
  ⟨-1001, 11, "bitcoin listing update", false, none⟩

/-- Forwarded message: transport identity `(222, 7)`, forward origin
channel `111`, origin message `42`. -/
def msgF : Msg :=
  ⟨222, 7, "bitcoin listing update", false, some ⟨some 111, some 42⟩⟩

/-- Fresh transport copy `(222, 9)` of the same forward origin
`(111, 42)` with identical text. -/
def msgF2 : Msg :=
  ⟨222, 9, "bitcoin listing update", false, some ⟨some 111, some 42⟩⟩

/-- Greeting-only message (matches the 1–3 alphanumerics meaningless
pattern). -/
def msgG : Msg :=
  ⟨-1001, 5, "gm", false, none⟩

/-- Stored row with a unit-basis embedding, used at the similarity
threshold boundary. -/
noncomputable def rowE : Row :=
  ⟨1, 2, 100, "t", some [(1 : ℝ), 0], "h", some "low", some "", some "", some "",
   some ""⟩

/-- Placeholder row recorded for transport identity `(5, 6)` (the shape
written by `mark_message_processed`). -/
def rowP : Row :=
  ⟨5, 6, 0, "", none, "", some "low", some "", some "", some "", some ""⟩

/-- Message with the already-recorded transport identity `(5, 6)`. -/
def msgP : Msg :=
  ⟨5, 6, "hello world", false, none⟩

/-! ## Helper lemmas about the importance order -/

/-- Value of `importance_order.get` is at most 2. -/
theorem importanceOrderGet_le_two (s : String) : importanceOrderGet s ≤ 2 := by
  unfold importanceOrderGet
  split_ifs <;> omega

/-- Round trip through the inverted importance dictionary for in-range
ranks. -/
theorem importanceOrderGet_invImportanceGet (n : Nat) (fallback : String) (h : n ≤ 2) :
    importanceOrderGet (invImportanceGet n fallback) = n := by
  interval_cases n <;> rfl

/-- Membership of the inverted importance dictionary's output for
in-range ranks. -/
theorem invImportanceGet_mem (n : Nat) (fallback : String) (h : n ≤ 2) :
    invImportanceGet n fallback ∈ (["low", "medium", "high"] : List String) := by
  interval_cases n <;> simp [invImportanceGet]

/-- Unrecognized importance strings rank as 0. -/
theorem importanceOrderGet_eq_zero_of_unrecognized (s : String)
    (h : s ∉ (["low", "medium", "high"] : List String)) : importanceOrderGet s = 0 := by
  unfold importanceOrderGet
  split_ifs with h1 h2 h3 <;> simp_all

/-- C7 — boost monotonicity: for every text and every input importance,
the rule-based boost returns an importance whose rank under
`low < medium < high` is at least the input's rank; boosting never
lowers importance. -/
theorem boost_importance_monotone (eventSearch actionSearch linkSearch : String → Bool)
    (text current_importance : String) :
    importanceOrderGet current_importance ≤
      importanceOrderGet
        (boost_importance_for_events eventSearch actionSearch linkSearch text
          current_importance).1 := by
  have hc2 := importanceOrderGet_le_two current_importance
  unfold boost_importance_for_events
  cases hE : eventSearch text <;> cases hA : actionSearch text <;>
    cases hL : linkSearch text <;>
    simp only [Bool.false_and, Bool.true_and, Bool.and_false, Bool.and_self,
      if_true, if_false, Bool.false_eq_true, if_neg, ite_true, ite_false] <;>
    rw [importanceOrderGet_invImportanceGet _ _ (by omega)] <;> omega

/-- C10 — boost output range: the boosted importance always lies in the
closed set `{low, medium, high}`, and an input importance outside that
set with no rule match comes back as `"low"` rather than passing
through. -/
theorem boost_importance_range (eventSearch actionSearch linkSearch : String → Bool)
    (text current_importance : String) :
    (boost_importance_for_events eventSearch actionSearch linkSearch text
        current_importance).1 ∈ (["low", "medium", "high"] : List String) ∧
    (current_importance ∉ (["low", "medium", "high"] : List String) →
      eventSearch text = false → actionSearch text = false →
      linkSearch text = false →
      (boost_importance_for_events eventSearch actionSearch linkSearch text
          current_importance).1 = "low") := by
  have hc2 := importanceOrderGet_le_two current_importance
  constructor
  · unfold boost_importance_for_events
    cases hE : eventSearch text <;> cases hA : actionSearch text <;>
      cases hL : linkSearch text <;>
      simp only [Bool.false_and, Bool.true_and, Bool.and_false, Bool.and_self,
        if_true, if_false, Bool.false_eq_true, ite_true, ite_false] <;>
      exact invImportanceGet_mem _ _ (by omega)
  · intro hmem hE hA hL
    unfold boost_importance_for_events
    rw [hE, hA, hL]
    simp only [Bool.false_and, if_false, Bool.false_eq_true, ite_false]
    rw [importanceOrderGet_eq_zero_of_unrecognized _ hmem]
    rfl

/-- Witness for C10 at a concrete unrecognized importance. -/
theorem boost_importance_range_witness :
    (boost_importance_for_events (fun _ => false) (fun _ => false) (fun _ => false)
        "x" "urgent").1 = "low" :=
  (boost_importance_range (fun _ => false) (fun _ => false) (fun _ => false)
      "x" "urgent").2 (by decide) rfl rfl rfl

/-! ## Theorems about `cosine_similarity` -/

/-- Sum of squares is nonnegative. -/
theorem dotR_self_nonneg (a : List ℝ) : 0 ≤ dotR a a := by
  induction a with
  | nil => simp [dotR]
  | cons x xs ih => simp only [dotR]; nlinarith [sq_nonneg x]

/-- Cauchy–Schwarz inequality for the truncating dot product. -/
theorem dotR_cauchy_schwarz (a : List ℝ) :
    ∀ b : List ℝ, dotR a b ^ 2 ≤ dotR a a * dotR b b := by
  induction a with
  | nil =>
    intro b
    simp [dotR]
  | cons x xs ih =>
    intro b
    cases b with
    | nil => simp [dotR]
    | cons y ys =>
      have h := ih ys
      have hA := dotR_self_nonneg xs
      have hB := dotR_self_nonneg ys
      simp only [dotR]
      rcases eq_or_lt_of_le hB with hB0 | hBpos
      · have hd2 : dotR xs ys ^ 2 ≤ 0 := by nlinarith
        have hd0 : dotR xs ys ^ 2 = 0 := le_antisymm hd2 (sq_nonneg _)
        have hd : dotR xs ys = 0 := by
          exact pow_eq_zero_iff (by norm_num : (2 : ℕ) ≠ 0) |>.mp hd0
        rw [hd, ← hB0]
        nlinarith [mul_nonneg hA (sq_nonneg y)]
      · nlinarith [sq_nonneg (x * dotR ys ys - y * dotR xs ys),
          mul_nonneg (add_nonneg (sq_nonneg y) hB) (sub_nonneg.mpr h)]

/-- Absolute value of the cosine similarity is at most 1. -/
theorem abs_cosine_similarity_le_one (a b : List ℝ) : |cosine_similarity a b| ≤ 1 := by
  unfold cosine_similarity
  split_ifs with h1 h2
  · simp
  · simp
  · push_neg at h1
    obtain ⟨ha, hb⟩ := h1
    have hA := dotR_self_nonneg a
    have hB := dotR_self_nonneg b
    have hna : 0 < npNorm a := lt_of_le_of_ne (Real.sqrt_nonneg _) (Ne.symm ha)
    have hnb : 0 < npNorm b := lt_of_le_of_ne (Real.sqrt_nonneg _) (Ne.symm hb)
    have key : |dotR a b| ≤ npNorm a * npNorm b := by
      have hcs := dotR_cauchy_schwarz a b
      have habs : |dotR a b| = Real.sqrt (dotR a b ^ 2) := (Real.sqrt_sq_eq_abs _).symm
      rw [habs]
      calc Real.sqrt (dotR a b ^ 2) ≤ Real.sqrt (dotR a a * dotR b b) :=
            Real.sqrt_le_sqrt hcs
        _ = npNorm a * npNorm b := by
            rw [npNorm, npNorm, ← Real.sqrt_mul hA]
    rw [abs_div, abs_of_pos (mul_pos hna hnb), div_le_one (mul_pos hna hnb)]
    exact key

/-- C8 — counterexample: the cosine similarity of the one-dimensional
vectors `[1]` and `[-1]` is `-1`, which lies outside `[0, 1]`; the
claimed codomain `[0, 1]` is wrong. -/
theorem cosine_similarity_negative_example :
    cosine_similarity [(1 : ℝ)] [(-1 : ℝ)] = -1 ∧
    cosine_similarity [(1 : ℝ)] [(-1 : ℝ)] < 0 := by
  have hn1 : npNorm [(1 : ℝ)] = 1 := by
    norm_num [npNorm, dotR]
  have hn2 : npNorm [(-1 : ℝ)] = 1 := by
    norm_num [npNorm, dotR]
  unfold cosine_similarity
  rw [hn1, hn2]
  norm_num [dotR]

/-- C8 — amended: the similarity function returns a value in `[-1, 1]`
(not `[0, 1]`) computed as cosine similarity, and returns 0 when either
vector has zero magnitude, guarding the division by zero without
raising. -/
theorem cosine_similarity_range (a b : List ℝ) :
    -1 ≤ cosine_similarity a b ∧ cosine_similarity a b ≤ 1 ∧
    (npNorm a = 0 ∨ npNorm b = 0 → cosine_similarity a b = 0) := by
  have h := abs_le.mp (abs_cosine_similarity_le_one a b)
  refine ⟨h.1, h.2, fun hz => ?_⟩
  unfold cosine_similarity
  rw [if_pos hz]

/-- Witness for C8 at the zero vector. -/
theorem cosine_similarity_range_witness : cosine_similarity ([] : List ℝ) [] = 0 :=
  (cosine_similarity_range [] []).2.2 (Or.inl (by norm_num [npNorm, dotR]))

/-- C9 — totality of the cosine-similarity computation: on every pair of
inputs it returns a value; a length mismatch (the representable
computation error, `np.dot` raising) yields 0, a zero norm yields 0, and
in every case the result is either 0 or the genuine cosine quotient. -/
theorem cosine_similarity_total (a b : List ℝ) :
    (a.length ≠ b.length → cosine_similarity a b = 0) ∧
    (npNorm a = 0 ∨ npNorm b = 0 → cosine_similarity a b = 0) ∧
    (cosine_similarity a b = 0 ∨
      cosine_similarity a b = dotR a b / (npNorm a * npNorm b)) := by
  unfold cosine_similarity
  split_ifs with h1 h2
  · exact ⟨fun _ => rfl, fun _ => rfl, Or.inl rfl⟩
  · exact ⟨fun _ => rfl, fun hz => absurd hz h1, Or.inl rfl⟩
  · exact ⟨fun hl => absurd hl h2, fun hz => absurd hz h1, Or.inr rfl⟩

/-- Witness for C9 at vectors of different lengths. -/
theorem cosine_similarity_total_witness :
    cosine_similarity [(1 : ℝ), 2] [(3 : ℝ)] = 0 :=
  (cosine_similarity_total [(1 : ℝ), 2] [(3 : ℝ)]).1 (by decide)

/-! ## Theorems about `find_recent_similar` -/

/-- Unfolding of the code step on a row without embedding. -/
theorem simStepCode_none (sim : List ℝ → List ℝ → ℝ) (query : List ℝ) (threshold : ℝ)
    (acc : Option (Int × Int × ℝ) × ℝ) (r : Row) (hre : r.embedding = none) :
    simStepCode sim query threshold acc r = acc := by
  unfold simStepCode
  rw [hre]

/-- Unfolding of the code step on a row with embedding. -/
theorem simStepCode_some (sim : List ℝ → List ℝ → ℝ) (query : List ℝ) (threshold : ℝ)
    (acc : Option (Int × Int × ℝ) × ℝ) (r : Row) (e : List ℝ)
    (hre : r.embedding = some e) :
    simStepCode sim query threshold acc r =
      if threshold ≤ sim query e ∧ acc.2 < sim query e then
        (some (r.chat_id, r.message_id, sim query e), sim query e)
      else acc := by
  unfold simStepCode
  rw [hre]

/-- Unfolding of the specification step on a row without embedding. -/
theorem simStepSpec_none (sim : List ℝ → List ℝ → ℝ) (query : List ℝ) (threshold : ℝ)
    (acc : Option (Int × Int × ℝ)) (r : Row) (hre : r.embedding = none) :
    simStepSpec sim query threshold acc r = acc := by
  unfold simStepSpec
  rw [hre]

/-- Unfolding of the specification step on a row with embedding, empty
accumulator. -/
theorem simStepSpec_some_none (sim : List ℝ → List ℝ → ℝ) (query : List ℝ)
    (threshold : ℝ) (r : Row) (e : List ℝ) (hre : r.embedding = some e) :
    simStepSpec sim query threshold none r =
      if threshold ≤ sim query e then some (r.chat_id, r.message_id, sim query e)
      else none := by
  unfold simStepSpec
  rw [hre]

/-- Unfolding of the specification step on a row with embedding,
recorded accumulator. -/
theorem simStepSpec_some_some (sim : List ℝ → List ℝ → ℝ) (query : List ℝ)
    (threshold : ℝ) (r : Row) (e : List ℝ) (p : Int × Int × ℝ)
    (hre : r.embedding = some e) :
    simStepSpec sim query threshold (some p) r =
      if threshold ≤ sim query e then
        (if p.2.2 < sim query e then some (r.chat_id, r.message_id, sim query e)
         else some p)
      else some p := by
  unfold simStepSpec
  rw [hre]

/-- Coupling between the scan-loop accumulator of the code (`best`,
`best_similarity`) and the specification's accumulator, valid for
strictly positive thresholds: as long as `best_similarity` mirrors the
recorded best score (0 while nothing is recorded), both folds agree. -/
theorem simStep_coupling (sim : List ℝ → List ℝ → ℝ) (query : List ℝ) (threshold : ℝ)
    (hθ : 0 < threshold) :
    ∀ (l : List Row) (b : Option (Int × Int × ℝ)) (v : ℝ),
      (b = none → v = 0) → (∀ x, b = some x → v = x.2.2 ∧ threshold ≤ x.2.2) →
      (l.foldl (simStepCode sim query threshold) (b, v)).1 =
        l.foldl (simStepSpec sim query threshold) b := by
  intro l
  induction l with
  | nil =>
    intro b v h1 h2
    rfl
  | cons r t ih =>
    intro b v h1 h2
    simp only [List.foldl_cons]
    cases hre : r.embedding with
    | none =>
      rw [simStepCode_none sim query threshold _ r hre,
        simStepSpec_none sim query threshold _ r hre]
      exact ih b v h1 h2
    | some e =>
      rw [simStepCode_some sim query threshold _ r e hre]
      cases b with
      | none =>
        have hv : v = 0 := h1 rfl
        subst hv
        rw [simStepSpec_some_none sim query threshold r e hre]
        by_cases hts : threshold ≤ sim query e
        · have hlt : (0 : ℝ) < sim query e := lt_of_lt_of_le hθ hts
          rw [if_pos (And.intro hts hlt), if_pos hts]
          apply ih
          · intro hc
            cases hc
          · intro x hx
            cases hx
            exact ⟨rfl, hts⟩
        · rw [if_neg (fun hc => hts hc.1), if_neg hts]
          exact ih none 0 (fun _ => rfl) (fun x hx => by cases hx)
      | some p =>
        obtain ⟨hv1, hv2⟩ := h2 p rfl
        subst hv1
        rw [simStepSpec_some_some sim query threshold r e p hre]
        by_cases hts : threshold ≤ sim query e
        · by_cases hlt : p.2.2 < sim query e
          · rw [if_pos (And.intro hts hlt), if_pos hts, if_pos hlt]
            apply ih
            · intro hc
              cases hc
            · intro x hx
              cases hx
              exact ⟨rfl, hts⟩
          · rw [if_neg (fun hc => hlt hc.2), if_pos hts, if_neg hlt]
            exact ih (some p) p.2.2 (fun hc => by cases hc)
              (fun x hx => by cases hx; exact ⟨rfl, hv2⟩)
        · rw [if_neg (fun hc => hts hc.1), if_neg hts]
          exact ih (some p) p.2.2 (fun hc => by cases hc)
            (fun x hx => by cases hx; exact ⟨rfl, hv2⟩)

/-- C4 — amended: for every similarity function (the injected
`embedding_client`), query vector, window start and strictly positive
threshold, `find_recent_similar` scans exactly the windowed records
(`captured_at >= since`, non-null embedding, most recent 1000) and
returns the highest-scoring match at or above the threshold, inclusive,
with ties broken in favor of the most recently captured record, and no
match when no scanned record reaches the threshold — stated as equality
with the specification function.  The inclusive boundary fails at
`threshold = 0` (see the counterexample), hence the positivity
hypothesis. -/
theorem find_recent_similar_eq_spec (sim : List ℝ → List ℝ → ℝ) (store : List Row)
    (query : List ℝ) (since_ts : Int) (threshold : ℝ) (hθ : 0 < threshold) :
    find_recent_similar sim store query since_ts threshold =
      find_recent_similar_spec sim store query since_ts threshold := by
  unfold find_recent_similar find_recent_similar_spec
  exact simStep_coupling sim query threshold hθ _ none 0 (fun _ => rfl)
    (fun x hx => by cases hx)

/-- Witness for C4 at threshold 1 on the empty store. -/
theorem find_recent_similar_eq_spec_witness :
    (0 : ℝ) < 1 ∧
    find_recent_similar cosine_similarity [] [] 0 1 =
      find_recent_similar_spec cosine_similarity [] [] 0 1 :=
  ⟨one_pos, find_recent_similar_eq_spec cosine_similarity [] [] 0 1 one_pos⟩

/-- C4 — counterexample at the inclusive boundary: with the configured
threshold equal to 0, a stored record whose cosine similarity to the
query is exactly the threshold (orthogonal unit vectors, similarity 0)
is **not** returned by the code (`best_similarity` starts at `0.0` and a
candidate must exceed it strictly), although the claim's inclusive
reading requires it; the specification function returns the match. -/
theorem find_recent_similar_boundary_example :
    cosine_similarity [(0 : ℝ), 1] [(1 : ℝ), 0] = 0 ∧
    find_recent_similar cosine_similarity [rowE] [(0 : ℝ), 1] 0 0 = none ∧
    find_recent_similar_spec cosine_similarity [rowE] [(0 : ℝ), 1] 0 0 =
      some (1, 2, 0) := by
  have hcos : cosine_similarity [(0 : ℝ), 1] [(1 : ℝ), 0] = 0 := by
    have hn1 : npNorm [(0 : ℝ), 1] = 1 := by norm_num [npNorm, dotR]
    have hn2 : npNorm [(1 : ℝ), 0] = 1 := by norm_num [npNorm, dotR]
    unfold cosine_similarity
    rw [hn1, hn2]
    norm_num [dotR]
  have hw : similarWindow [rowE] 0 = [rowE] := rfl
  refine ⟨hcos, ?_, ?_⟩
  · unfold find_recent_similar
    rw [hw]
    simp only [List.foldl_cons, List.foldl_nil, simStepCode, rowE]
    rw [hcos]
    norm_num
  · unfold find_recent_similar_spec
    rw [hw]
    simp only [List.foldl_cons, List.foldl_nil, simStepSpec, rowE]
    rw [hcos]
    norm_num

/-! ## Theorems about the admission veto (C6) -/

/-- Text matching a meaningless pattern forces the admission decision to
false, whatever the importance, threshold, overrides and summary. -/
theorem shouldForward_false_of_meaningless (env : Env)
    (text summary importance : String) (hm hl : Bool)
    (h : meaninglessText text = true) :
    shouldForward env text summary importance hm hl = false := by
  unfold shouldForward
  rw [h]
  simp

/-- Summary matching a nothing-to-summarize pattern forces the admission
decision to false, whatever the importance, threshold and overrides. -/
theorem shouldForward_false_of_summary (env : Env)
    (text summary importance : String) (hm hl : Bool)
    (h : meaninglessSummary summary = true) :
    shouldForward env text summary importance hm hl = false := by
  unfold shouldForward
  rw [h]
  simp

/-- Behaviour of `afterClassify` when the admission decision is false:
no delivery effect is emitted and the outcome is not `dispatched`. -/
theorem afterClassify_no_sends (env : Env) (store1 : List Row) (m : Msg)
    (text : String) (effs1 : List Eff) (a : Analysis)
    (h0 : ∀ e ∈ effs1, isSendEff e = false)
    (hsf : shouldForward env text a.summary (boostedImportance env text a)
      m.has_media (hasLinkContent env m) = false) :
    (∀ e ∈ (afterClassify env store1 m text effs1 a).effs, isSendEff e = false) ∧
    (afterClassify env store1 m text effs1 a).out ≠ Outcome.dispatched := by
  unfold afterClassify
  split_ifs with h1 h2 h3 h4
  · exact ⟨h0, fun hc => Outcome.noConfusion hc⟩
  · exact ⟨h0, fun hc => Outcome.noConfusion hc⟩
  · refine ⟨?_, fun hc => Outcome.noConfusion hc⟩
    intro e he
    rcases List.mem_append.mp he with hin | hin
    · exact h0 e hin
    · rcases List.mem_singleton.mp hin with rfl
      rfl
  · rw [hsf] at h3
    simp at h3
  · rw [hsf] at h3
    simp at h3

/-- Behaviour of `afterDedup` when the admission decision is false for
every judgment classification can return. -/
theorem afterDedup_no_sends (env : Env) (store : List Row) (m : Msg)
    (text text_hash : String) (emb : Option (List ℝ)) (effs0 : List Eff)
    (h0 : ∀ e ∈ effs0, isSendEff e = false)
    (hsf : ∀ a, env.classify text = Except.ok a →
      shouldForward env text a.summary (boostedImportance env text a) m.has_media
        (hasLinkContent env m) = false) :
    (∀ e ∈ (afterDedup env store m text text_hash emb effs0).effs,
        isSendEff e = false) ∧
    (afterDedup env store m text text_hash emb effs0).out ≠ Outcome.dispatched := by
  have hbase : ∀ e ∈ effs0 ++ [Eff.insertCall m.chat_id (storedMessageId m),
      Eff.classifyCall], isSendEff e = false := by
    intro e he
    rcases List.mem_append.mp he with hin | hin
    · exact h0 e hin
    · rcases List.mem_cons.mp hin with rfl | hin
      · rfl
      · rcases List.mem_singleton.mp hin with rfl
        rfl
  unfold afterDedup
  cases hc : env.classify text with
  | error u => exact ⟨hbase, fun hcon => Outcome.noConfusion hcon⟩
  | ok a => exact afterClassify_no_sends env _ m text _ a hbase (hsf a hc)

/-- Case analysis of one `handle_message` run: an early exit with no
effects, a similarity drop, or the post-dedup continuation with the
trace accumulated by the dedup stage. -/
theorem handle_message_shape (env : Env) (store : List Row) (m : Msg) :
    (∃ o, o ∈ [Outcome.alreadyProcessed, Outcome.skippedEmpty,
        Outcome.skippedForwardNoOrigin, Outcome.skippedNoText,
        Outcome.droppedExactDup] ∧
      handle_message env store m = ⟨store, [], o⟩) ∨
    handle_message env store m = ⟨store, [Eff.simScan], Outcome.droppedSimilar⟩ ∨
    (∃ emb effs0, (effs0 = [] ∨ effs0 = [Eff.simScan]) ∧
      handle_message env store m =
        afterDedup env store m (pipelineText env m) (env.md5 (pipelineText env m))
          emb effs0) := by
  unfold handle_message
  split
  · exact Or.inl ⟨_, by simp, rfl⟩
  split
  · exact Or.inl ⟨_, by simp, rfl⟩
  split
  · exact Or.inl ⟨_, by simp, rfl⟩
  split
  · exact Or.inl ⟨_, by simp, rfl⟩
  split
  · exact Or.inl ⟨_, by simp, rfl⟩
  split
  · split
    · exact Or.inr (Or.inl rfl)
    · exact Or.inr (Or.inr ⟨_, [Eff.simScan], Or.inr rfl, rfl⟩)
  · exact Or.inr (Or.inr ⟨none, [], Or.inl rfl, rfl⟩)

/-- C6 — veto precedence: for any message whose working text matches a
meaningless-content pattern, or whose classification summary matches a
nothing-to-summarize pattern, the handler delivers nothing to any
destination and does not terminate in `dispatched`, regardless of
effective importance and of the length/keyword/media-link overrides. -/
theorem veto_forces_suppression (env : Env) (store : List Row) (m : Msg)
    (h : meaninglessText (pipelineText env m) = true ∨
      (∃ a, env.classify (pipelineText env m) = Except.ok a ∧
        meaninglessSummary a.summary = true)) :
    (∀ e ∈ (handle_message env store m).effs, isSendEff e = false) ∧
    (handle_message env store m).out ≠ Outcome.dispatched := by
  have hsf : ∀ a, env.classify (pipelineText env m) = Except.ok a →
      shouldForward env (pipelineText env m) a.summary
        (boostedImportance env (pipelineText env m) a) m.has_media
        (hasLinkContent env m) = false := by
    intro a hc
    rcases h with hm | ⟨a', ha', hs⟩
    · exact shouldForward_false_of_meaningless env _ _ _ _ _ hm
    · rw [ha'] at hc
      injection hc with haa
      subst haa
      exact shouldForward_false_of_summary env _ _ _ _ _ hs
  rcases handle_message_shape env store m with ⟨o, ho, heq⟩ | heq | ⟨emb, effs0, heffs0, heq⟩
  · rw [heq]
    refine ⟨fun e he => absurd he (List.not_mem_nil e), ?_⟩
    fin_cases ho <;> simp
  · rw [heq]
    refine ⟨?_, by simp⟩
    intro e he
    rcases List.mem_singleton.mp he with rfl
    rfl
  · rw [heq]
    apply afterDedup_no_sends
    · rcases heffs0 with h0 | h0 <;> subst h0
      · intro e he
        exact absurd he (List.not_mem_nil e)
      · intro e he
        rcases List.mem_singleton.mp he with rfl
        rfl
    · exact hsf

/-- Witness for C6: the greeting-only text `"gm"` matches the 1–3
alphanumerics meaningless pattern and is suppressed even though the
classification judgment carries high importance and would clear the
threshold. -/
theorem veto_forces_suppression_witness :
    meaninglessText (pipelineText envA msgG) = true ∧
    (handle_message envA [] msgG).out ≠ Outcome.dispatched :=
  ⟨by decide, (veto_forces_suppression envA [] msgG (Or.inl (by decide))).2⟩

/-! ## Theorems about forward provenance (C1) -/

/-- Stored message id of a forward with truthy origin message identity. -/
theorem storedMessageId_fwd (m : Msg) (oc om : Int)
    (hf : m.fwd = some ⟨some oc, some om⟩) (hom : om ≠ 0) :
    storedMessageId m = om := by
  unfold storedMessageId extract_forward_info
  rw [hf]
  simp [truthyInt, hom]

/-- Origin link of a forward with truthy origin channel and message
identity: built from the origin identity and the origin channel's
metadata, for every stored-message-id argument. -/
theorem computeOrigLink_fwd (env : Env) (m : Msg) (oc om mid : Int)
    (hf : m.fwd = some ⟨some oc, some om⟩) (hoc : oc ≠ 0) (hom : om ≠ 0) :
    computeOrigLink env m mid =
      build_original_link oc om (env.channelMeta oc).is_public
        (env.channelMeta oc).username (env.channelMeta oc).internal_id := by
  unfold computeOrigLink extract_forward_info
  rw [hf]
  simp [truthyInt, hoc, hom]

/-- Every delivery effect of a dispatch carries the origin link. -/
theorem dispatchSends_links (importance orig_link : String) (bot : Bool) :
    ∀ e ∈ dispatchSends importance orig_link bot, effLink e = some orig_link := by
  unfold dispatchSends
  split_ifs <;> intro e he <;> fin_cases he <;> rfl

/-- Every effect of `afterClassify` is either inherited from `effs1` or
carries the origin link computed for the stored message id. -/
theorem afterClassify_effs_subset (env : Env) (store1 : List Row) (m : Msg)
    (text : String) (effs1 : List Eff) (a : Analysis) :
    ∀ e ∈ (afterClassify env store1 m text effs1 a).effs,
      e ∈ effs1 ∨ effLink e = some (computeOrigLink env m (storedMessageId m)) := by
  unfold afterClassify
  split_ifs <;> intro e he
  · exact Or.inl he
  · exact Or.inl he
  · rcases List.mem_append.mp he with hin | hin
    · exact Or.inl hin
    · rcases List.mem_singleton.mp hin with rfl
      exact Or.inr rfl
  · rcases List.mem_append.mp he with hin | hin
    · rcases List.mem_append.mp hin with hin2 | hin2
      · exact Or.inl hin2
      · exact Or.inr (dispatchSends_links _ _ _ e hin2)
    · rcases List.mem_singleton.mp hin with rfl
      exact Or.inr rfl
  · exact Or.inl he

/-- Every effect of `afterDedup` is inherited from the dedup trace, is
the preliminary insert with key `(transport chat, stored message id)`,
is the classification call, or carries the origin link. -/
theorem afterDedup_effs_subset (env : Env) (store : List Row) (m : Msg)
    (text text_hash : String) (emb : Option (List ℝ)) (effs0 : List Eff) :
    ∀ e ∈ (afterDedup env store m text text_hash emb effs0).effs,
      e ∈ effs0 ∨ e = Eff.insertCall m.chat_id (storedMessageId m) ∨
      e = Eff.classifyCall ∨
      effLink e = some (computeOrigLink env m (storedMessageId m)) := by
  have hbase : ∀ e ∈ effs0 ++ [Eff.insertCall m.chat_id (storedMessageId m),
      Eff.classifyCall],
      e ∈ effs0 ∨ e = Eff.insertCall m.chat_id (storedMessageId m) ∨
      e = Eff.classifyCall ∨
      effLink e = some (computeOrigLink env m (storedMessageId m)) := by
    intro e he
    rcases List.mem_append.mp he with hin | hin
    · exact Or.inl hin
    · rcases List.mem_cons.mp hin with rfl | hin
      · exact Or.inr (Or.inl rfl)
      · rcases List.mem_singleton.mp hin with rfl
        exact Or.inr (Or.inr (Or.inl rfl))
  unfold afterDedup
  cases hc : env.classify text with
  | error u => exact hbase
  | ok a =>
    intro e he
    rcases afterClassify_effs_subset env _ m text _ a e he with hin | hlink
    · exact hbase e hin
    · exact Or.inr (Or.inr (Or.inr hlink))

/-- C1 — amended: for every processed message carrying forward
provenance with truthy origin channel and origin message identity, the
preliminary insert uses the key `(transport channel, origin message
id)` — the origin message identity supersedes the transport message
identity, but the channel component remains the transport channel — and
every origin link handed to a delivery or to `update_analysis` is built
from the origin channel/message identity and the origin channel's
metadata. -/
theorem forward_identity_routing (env : Env) (store : List Row) (m : Msg)
    (oc om : Int) (hf : m.fwd = some ⟨some oc, some om⟩)
    (hoc : oc ≠ 0) (hom : om ≠ 0) :
    (∀ c mid, Eff.insertCall c mid ∈ (handle_message env store m).effs →
      c = m.chat_id ∧ mid = om) ∧
    (∀ e ∈ (handle_message env store m).effs, ∀ l, effLink e = some l →
      l = build_original_link oc om (env.channelMeta oc).is_public
            (env.channelMeta oc).username (env.channelMeta oc).internal_id) := by
  have hsid : storedMessageId m = om := storedMessageId_fwd m oc om hf hom
  have hlink := computeOrigLink_fwd env m oc om (storedMessageId m) hf hoc hom
  rcases handle_message_shape env store m with ⟨o, ho, heq⟩ | heq | ⟨emb, effs0, heffs0, heq⟩
  · rw [heq]
    exact ⟨fun c mid hin => absurd hin (List.not_mem_nil _),
      fun e he => absurd he (List.not_mem_nil _)⟩
  · rw [heq]
    constructor
    · intro c mid hin
      rcases List.mem_singleton.mp hin with heff
      exact Eff.noConfusion heff
    · intro e he l hl
      rcases List.mem_singleton.mp he with rfl
      exact Option.noConfusion hl
  · rw [heq]
    have hsub := afterDedup_effs_subset env store m (pipelineText env m)
      (env.md5 (pipelineText env m)) emb effs0
    have heff0 : ∀ e ∈ effs0, e = Eff.simScan := by
      rcases heffs0 with h0 | h0 <;> subst h0
      · intro e he
        exact absurd he (List.not_mem_nil _)
      · intro e he
        exact List.mem_singleton.mp he
    constructor
    · intro c mid hin
      rcases hsub _ hin with h1 | h1 | h1 | h1
      · exact Eff.noConfusion (heff0 _ h1)
      · injection h1 with hc hmid
        exact ⟨hc, by rw [hmid, hsid]⟩
      · exact Eff.noConfusion h1
      · exact Option.noConfusion h1
    · intro e he l hl
      rcases hsub _ he with h1 | h1 | h1 | h1
      · rw [heff0 _ h1] at hl
        exact Option.noConfusion hl
      · rw [h1] at hl
        exact Option.noConfusion hl
      · rw [h1] at hl
        exact Option.noConfusion hl
      · rw [hl] at h1
        injection h1 with hll
        rw [hll]
        exact hlink

/-- Witness for C1 on the concrete forward fixture: the insert key seen
in the trace is the transport channel with the origin message id, and
the aggregator delivery's link is the origin link of `(111, 42)`. -/
theorem forward_identity_routing_witness :
    ((222 : Int) = msgF.chat_id ∧ (42 : Int) = 42) ∧
    "https://t.me/c/111/42" =
      build_original_link 111 42 (envA.channelMeta 111).is_public
        (envA.channelMeta 111).username (envA.channelMeta 111).internal_id :=
  ⟨(forward_identity_routing envA [] msgF 111 42 rfl (by decide) (by decide)).1
     222 42 (by decide),
   (forward_identity_routing envA [] msgF 111 42 rfl (by decide) (by decide)).2
     (Eff.sendAggregator "https://t.me/c/111/42") (by decide)
     "https://t.me/c/111/42" rfl⟩

/-- C1 — counterexample: for the forwarded message with origin identity
`(111, 42)` received through transport identity `(222, 7)`, the
preliminary insert is keyed `(222, 42)` — the transport channel, not the
origin channel `111` — and no record at all is persisted (the insert is
skipped because the `NOT NULL` classification columns receive `NULL`
under `INSERT OR IGNORE`), while the origin link does point at
`(111, 42)`.  The origin channel identity therefore does not supersede
the transport channel identity for the persistence key. -/
theorem forward_persistence_key_example :
    Eff.insertCall 222 42 ∈ (handle_message envA [] msgF).effs ∧
    Eff.insertCall 111 42 ∉ (handle_message envA [] msgF).effs ∧
    (handle_message envA [] msgF).store.length = 0 ∧
    Eff.sendAggregator "https://t.me/c/111/42" ∈ (handle_message envA [] msgF).effs ∧
    (handle_message envA [] msgF).out = Outcome.dispatched ∧
    (222 : Int) ≠ 111 := by
  decide

/-! ## Theorems about idempotent ingestion (C3) and the dedup record
(C2, C5) -/

/-- Marking always leaves the transport identity recorded. -/
theorem is_processed_mark (s : List Row) (c mid : Int) :
    is_message_processed (mark_message_processed s c mid) c mid = true := by
  unfold mark_message_processed
  split_ifs with h
  · exact h
  · unfold is_message_processed
    simp [List.any_append]

/-- After one ingestion cycle the transport identity is recorded. -/
theorem is_processed_after_ingest (env : Env) (store : List Row) (m : Msg) :
    is_message_processed (ingest env store m).store m.chat_id m.msg_id = true := by
  unfold ingest
  split_ifs with h
  · exact h
  · exact is_processed_mark _ _ _

/-- C3 — amended: (a) ingesting a message whose transport
`(channel_id, message_id)` is already recorded is a no-op with no
effects and no error; (b) consequently, re-submitting the same transport
message through the ingestion cycle never produces a second dispatch —
the cycle records the transport identity (success or handled failure
alike) and the re-submission short-circuits; (c) `insert_message` is
idempotent by the unique key: an insert for an existing
`(chat_id, message_id)` inserts nothing and raises nothing.  (Identity
protection does **not** extend to a fresh transport copy carrying the
same forward-origin identity; see the counterexample.) -/
theorem ingestion_idempotent :
    (∀ (env : Env) (store : List Row) (m : Msg),
      is_message_processed store m.chat_id m.msg_id = true →
      ingest env store m = ⟨store, [], Outcome.alreadyProcessed⟩) ∧
    (∀ (env1 env2 : Env) (store : List Row) (m : Msg),
      (ingest env2 (ingest env1 store m).store m).out = Outcome.alreadyProcessed ∧
      (ingest env2 (ingest env1 store m).store m).effs = []) ∧
    (∀ (store : List Row) (c mid d : Int) (t : String) (emb : Option (List ℝ))
      (hsh : String) (imp cat tg summ ol : Option String),
      is_message_processed store c mid = true →
      insert_message store c mid d t emb hsh imp cat tg summ ol = store) := by
  have hskip : ∀ (env : Env) (store : List Row) (m : Msg),
      is_message_processed store m.chat_id m.msg_id = true →
      ingest env store m = ⟨store, [], Outcome.alreadyProcessed⟩ := by
    intro env store m h
    unfold ingest
    rw [if_pos h]
  refine ⟨hskip, ?_, ?_⟩
  · intro env1 env2 store m
    rw [hskip env2 _ m (is_processed_after_ingest env1 store m)]
    exact ⟨rfl, rfl⟩
  · intro store c mid d t emb hsh imp cat tg summ ol h
    unfold insert_message
    rw [if_pos h]

/-- Witness for C3 on the concrete recorded identity `(5, 6)`. -/
theorem ingestion_idempotent_witness :
    ingest envA [rowP] msgP = ⟨[rowP], [], Outcome.alreadyProcessed⟩ ∧
    insert_message [rowP] 5 6 77 "x" none "h" (some "low") (some "") (some "")
      (some "") (some "") = [rowP] :=
  ⟨ingestion_idempotent.1 envA [rowP] msgP (by decide),
   ingestion_idempotent.2.2 [rowP] 5 6 77 "x" none "h" (some "low") (some "")
     (some "") (some "") (some "") (by decide)⟩

/-- C3 — counterexample: a fresh transport copy `(222, 9)` of the
forward origin `(111, 42)` already dispatched as `(222, 7)` is fully
reprocessed and dispatched a second time — re-submission under the
forward-origin identity does produce a second dispatch.  No identity
record protects it: the transport-identity mark has a different message
id, and the preliminary insert persisted nothing.  The re-submission
arrives after the recency window, where even a correctly persisted
content-hash record would not have suppressed it, so the forward-origin
half of the claim fails independently of the insert slip. -/
theorem forward_origin_redispatch_example :
    (ingest envA [] msgF).out = Outcome.dispatched ∧
    (ingest envA3 (ingest envA [] msgF).store msgF2).out = Outcome.dispatched := by
  decide

/-- C2 — evaluation at the failing input: two messages with
byte-identical text five minutes apart are **both** dispatched; the
second is not caught by the exact content-hash check (the preliminary
insert persisted no record for the first, so `find_exact_duplicate`
finds nothing) and classification runs for it. -/
theorem exact_duplicate_not_caught_example :
    (ingest envA [] msgA).out = Outcome.dispatched ∧
    (ingest envA2 (ingest envA [] msgA).store msgB).out = Outcome.dispatched ∧
    Eff.classifyCall ∈ (ingest envA2 (ingest envA [] msgA).store msgB).effs ∧
    (ingest envA2 (ingest envA [] msgA).store msgB).out ≠
      Outcome.droppedExactDup := by
  decide

/-- C5 — evaluation at the failing input: when classification fails
after exhausting retries, the insert call does precede the
classification call, but the only row the cycle leaves behind is the
processed-mark placeholder with an **empty** content hash — no record
carrying the message's hash is persisted — so a later identical message
within the window is not caught by the exact-hash check and is
dispatched. -/
theorem classify_failure_no_record_example :
    (ingest envFail [] msgA).out = Outcome.classifyFailed ∧
    (ingest envFail [] msgA).effs = [Eff.insertCall (-1001) 10, Eff.classifyCall] ∧
    (ingest envFail [] msgA).store.map (fun r => r.text_hash) = [""] ∧
    (ingest envA2 (ingest envFail [] msgA).store msgB).out = Outcome.dispatched ∧
    (ingest envA2 (ingest envFail [] msgA).store msgB).out ≠
      Outcome.droppedExactDup := by
  decide

end TGBot
